import Mathlib

/-!
Shallow embedding of the Pulse Auto Market deal calculation and
reconciliation engine (`backend/server.py` and
`backend/desking_service.py`), with theorems settling the frozen claims
about its specification.

Modelling conventions:
* Python floats holding money or rates are modelled as `ℚ`; `round(x, 2)`
  is modelled as `round2` (round half up at the second decimal, per the
  spec's stated rounding discipline), `round(x, 4)` as `round4`.
* The one place the code raises a float to a fractional power
  (`DeskingService.calculate_finance_payment` with a non-monthly
  frequency) is modelled over `ℝ` with real exponentiation.
* Nondeterministic uuid identifiers on generated VSC options are
  modelled by a deterministic tag per (coverage, term) cell; identifiers
  of records supplied by callers stay arbitrary `String`s.
* Display-only string fields built by f-string formatting of floats
  (option `description`s) and uuid/timestamp metadata are omitted;
  every field that any computation reads is kept.
-/

def round2 (q : ℚ) : ℚ := ((round (100 * q) : ℤ) : ℚ) / 100

def round4 (q : ℚ) : ℚ := ((round (10000 * q) : ℤ) : ℚ) / 10000

noncomputable def round2R (x : ℝ) : ℝ := ((round (100 * x) : ℤ) : ℝ) / 100

/-- The spec's `clamp(x, lo, hi)`. -/
def clampQ (x lo hi : ℚ) : ℚ := max lo (min hi x)

namespace Server

inductive DealStatus where
  | pending
  | in_progress
  | completed
  | cancelled
deriving DecidableEq

inductive VehicleCondition where
  | new
  | used
  | certified
deriving DecidableEq

inductive VSCTerm where
  | months_12
  | months_24
  | months_36
  | months_48
  | months_60
deriving DecidableEq

inductive VSCCoverage where
  | powertrain
  | bumper_to_bumper
  | premium
deriving DecidableEq

structure Vehicle where
  vin : String
  year : ℤ
  make : String
  model : String
  condition : VehicleCondition
  mileage : ℤ
  msrp : ℚ
  invoice_price : Option ℚ := none
  selling_price : ℚ
deriving DecidableEq

structure TradeIn where
  vin : Option String := none
  year : ℤ
  make : String
  model : String
  mileage : ℤ
  condition : String
  estimated_value : ℚ
  payoff_amount : ℚ := 0
  net_trade_value : ℚ
deriving DecidableEq

structure Customer where
  first_name : String
  last_name : String
  state : Option String := none
deriving DecidableEq

structure FinanceTerms where
  loan_amount : ℚ
  apr : ℚ
  term_months : ℕ
  monthly_payment : ℚ
  total_interest : ℚ
  total_cost : ℚ
  down_payment : ℚ := 0
deriving DecidableEq

structure TaxCalculation where
  sales_tax_rate : ℚ
  sales_tax_amount : ℚ
  title_fee : ℚ := 0
  license_fee : ℚ := 0
  doc_fee : ℚ := 0
  total_fees : ℚ
deriving DecidableEq

structure VSCOption where
  id : String
  coverage_type : VSCCoverage
  term : VSCTerm
  mileage_limit : ℤ
  base_cost : ℚ
  markup : ℚ := 0
  final_price : ℚ
deriving DecidableEq

structure GAPOption where
  base_cost : ℚ
  markup : ℚ := 0
  final_price : ℚ
  loan_to_value_ratio : ℚ
deriving DecidableEq

structure Deal where
  status : DealStatus := .pending
  customer : Customer
  vehicle : Vehicle
  trade_in : Option TradeIn := none
  finance_terms : Option FinanceTerms := none
  tax_calculation : TaxCalculation
  vsc_options : List VSCOption := []
  selected_vsc : Option String := none
  gap_option : Option GAPOption := none
  total_vehicle_price : ℚ
  total_fees_taxes : ℚ
  total_fi_products : ℚ
  total_deal_amount : ℚ
  salesperson : Option String := none
deriving DecidableEq

structure DealCreate where
  customer : Customer
  vehicle : Vehicle
  trade_in : Option TradeIn := none
  salesperson : Option String := none
deriving DecidableEq

structure FinanceCalculationRequest where
  loan_amount : ℚ
  apr : ℚ
  term_months : ℕ
  down_payment : ℚ := 0
deriving DecidableEq

structure MenuSelectionRequest where
  selected_vsc_id : Option String := none
  include_gap : Bool := false
deriving DecidableEq

/-- Result record of `calculate_finance_payment` (the dict the Python
function returns). -/
structure FinanceCalc where
  monthly_payment : ℚ
  total_interest : ℚ
  total_cost : ℚ
deriving DecidableEq

/-- `server.calculate_finance_payment`: monthly amortization with the
zero-APR branch. -/
def calculate_finance_payment (loan_amount : ℚ) (apr : ℚ) (term_months : ℕ) :
    FinanceCalc :=
  if apr = 0 then
    { monthly_payment := round2 (loan_amount / (term_months : ℚ))
      total_interest := 0
      total_cost := round2 loan_amount }
  else
    let monthly_rate := apr / 12 / 100
    let monthly_payment := loan_amount * (monthly_rate * (1 + monthly_rate) ^ term_months) /
      ((1 + monthly_rate) ^ term_months - 1)
    let total_interest := monthly_payment * (term_months : ℚ) - loan_amount
    { monthly_payment := round2 monthly_payment
      total_interest := round2 total_interest
      total_cost := round2 (loan_amount + total_interest) }

/-- One row of the jurisdiction table in `calculate_sales_tax`. -/
structure StateRates where
  sales_tax : ℚ
  title : ℚ
  license : ℚ
  doc : ℚ
deriving DecidableEq

/-- The `tax_rates` dict literal of `server.calculate_sales_tax`. -/
def tax_rates_table (state : String) : Option StateRates :=
  if state = "CA" then some ⟨0.0725, 23, 65, 85⟩
  else if state = "TX" then some ⟨0.0625, 33, 51.75, 150⟩
  else if state = "FL" then some ⟨0.06, 77.25, 48, 199⟩
  else if state = "NY" then some ⟨0.08, 50, 25, 175⟩
  else none

/-- `server.calculate_sales_tax`: table lookup with `dict.get` defaulting
to the CA row. -/
def calculate_sales_tax (vehicle_price : ℚ) (state : String) : TaxCalculation :=
  let rates := (tax_rates_table state).getD ⟨0.0725, 23, 65, 85⟩
  let sales_tax_amount := vehicle_price * rates.sales_tax
  { sales_tax_rate := rates.sales_tax
    sales_tax_amount := round2 sales_tax_amount
    title_fee := rates.title
    license_fee := rates.license
    doc_fee := rates.doc
    total_fees := round2 (sales_tax_amount + rates.title + rates.license + rates.doc) }

/-- The `base_costs` table of `generate_vsc_options` (3 tiers x 5 terms). -/
def vsc_base_cost : VSCCoverage → VSCTerm → ℚ
  | .powertrain, .months_12 => 895
  | .powertrain, .months_24 => 1295
  | .powertrain, .months_36 => 1695
  | .powertrain, .months_48 => 2095
  | .powertrain, .months_60 => 2495
  | .bumper_to_bumper, .months_12 => 1495
  | .bumper_to_bumper, .months_24 => 1995
  | .bumper_to_bumper, .months_36 => 2495
  | .bumper_to_bumper, .months_48 => 2995
  | .bumper_to_bumper, .months_60 => 3495
  | .premium, .months_12 => 1995
  | .premium, .months_24 => 2695
  | .premium, .months_36 => 3395
  | .premium, .months_48 => 4095
  | .premium, .months_60 => 4795

/-- The `mileage_limits` table of `generate_vsc_options`. -/
def vsc_mileage_limit : VSCCoverage → ℤ
  | .powertrain => 100000
  | .bumper_to_bumper => 75000
  | .premium => 100000

/-- Deterministic stand-in for the uuid generated per VSC option. -/
def vsc_id : VSCCoverage → VSCTerm → String
  | .powertrain, .months_12 => "powertrain_12"
  | .powertrain, .months_24 => "powertrain_24"
  | .powertrain, .months_36 => "powertrain_36"
  | .powertrain, .months_48 => "powertrain_48"
  | .powertrain, .months_60 => "powertrain_60"
  | .bumper_to_bumper, .months_12 => "bumper_to_bumper_12"
  | .bumper_to_bumper, .months_24 => "bumper_to_bumper_24"
  | .bumper_to_bumper, .months_36 => "bumper_to_bumper_36"
  | .bumper_to_bumper, .months_48 => "bumper_to_bumper_48"
  | .bumper_to_bumper, .months_60 => "bumper_to_bumper_60"
  | .premium, .months_12 => "premium_12"
  | .premium, .months_24 => "premium_24"
  | .premium, .months_36 => "premium_36"
  | .premium, .months_48 => "premium_48"
  | .premium, .months_60 => "premium_60"

/-- `age_factor = max(0.8, 1 - (2024 - vehicle.year) * 0.05)`. -/
def ageFactor (v : Vehicle) : ℚ := max 0.8 (1 - ((2024 - v.year : ℤ) : ℚ) * 0.05)

/-- `mileage_factor = max(0.8, 1 - (vehicle.mileage / 100000) * 0.2)`. -/
def mileageFactor (v : Vehicle) : ℚ := max 0.8 (1 - ((v.mileage : ℚ) / 100000) * 0.2)

/-- One iteration of the loop body in `generate_vsc_options`. -/
def mk_vsc_option (v : Vehicle) (c : VSCCoverage) (t : VSCTerm) : VSCOption :=
  let base_cost := vsc_base_cost c t
  let markup := base_cost * 0.25
  let adjusted_cost := base_cost * ageFactor v * mileageFactor v
  { id := vsc_id c t
    coverage_type := c
    term := t
    mileage_limit := vsc_mileage_limit c
    base_cost := round2 adjusted_cost
    markup := round2 markup
    final_price := round2 (adjusted_cost + markup) }

def vscCoverages : List VSCCoverage := [.powertrain, .bumper_to_bumper, .premium]

def vscTerms : List VSCTerm :=
  [.months_12, .months_24, .months_36, .months_48, .months_60]

/-- `server.generate_vsc_options`: coverage-major, term-minor enumeration
of the 15 priced options. -/
def generate_vsc_options (v : Vehicle) : List VSCOption :=
  (vscCoverages.map fun c => vscTerms.map fun t => mk_vsc_option v c t).flatten

/-- `server.generate_gap_option`. -/
def generate_gap_option (loan_amount : ℚ) (vehicle_value : ℚ) : GAPOption :=
  let ltv_ratio := if vehicle_value > 0 then loan_amount / vehicle_value else 0
  let base_cost := min 1295 (max 695 (loan_amount * 0.05))
  let markup := base_cost * 0.30
  { base_cost := round2 base_cost
    markup := round2 markup
    final_price := round2 (base_cost + markup)
    loan_to_value_ratio := round4 ltv_ratio }

/-- `customer.state or "CA"`: `None` and the empty string both fall back. -/
def customerStateOrCA (c : Customer) : String :=
  match c.state with
  | none => "CA"
  | some s => if s = "" then "CA" else s

/-- `POST /deals` (`server.create_deal`), minus persistence. -/
def create_deal (dc : DealCreate) : Deal :=
  let customer_state := customerStateOrCA dc.customer
  let tax_calc := calculate_sales_tax dc.vehicle.selling_price customer_state
  let net_trade_value : ℚ :=
    match dc.trade_in with
    | none => 0
    | some t => t.estimated_value - t.payoff_amount
  let trade_in := dc.trade_in.map fun t =>
    { t with net_trade_value := t.estimated_value - t.payoff_amount }
  let vsc_options := generate_vsc_options dc.vehicle
  let total_vehicle_price := dc.vehicle.selling_price - net_trade_value
  let total_fees_taxes := tax_calc.total_fees
  { status := .pending
    customer := dc.customer
    vehicle := dc.vehicle
    trade_in := trade_in
    finance_terms := none
    tax_calculation := tax_calc
    vsc_options := vsc_options
    selected_vsc := none
    gap_option := none
    total_vehicle_price := total_vehicle_price
    total_fees_taxes := total_fees_taxes
    total_fi_products := 0
    total_deal_amount := total_vehicle_price + total_fees_taxes
    salesperson := dc.salesperson }

/-- `PUT /deals/{id}/status` (`server.update_deal_status`): the stored
status is overwritten with the requested one, no guard. -/
def update_deal_status (d : Deal) (status : DealStatus) : Deal :=
  { d with status := status }

/-- `POST /deals/{id}/finance` (`server.add_finance_terms`): attaches the
computed finance terms; totals are untouched. -/
def add_finance_terms (d : Deal) (req : FinanceCalculationRequest) : Deal :=
  let c := calculate_finance_payment req.loan_amount req.apr req.term_months
  { d with
    finance_terms := some
      { loan_amount := req.loan_amount
        apr := req.apr
        term_months := req.term_months
        monthly_payment := c.monthly_payment
        total_interest := c.total_interest
        total_cost := c.total_cost
        down_payment := req.down_payment } }

/-- `POST /deals/{id}/menu-selection` (`server.update_menu_selection`),
minus persistence: recomputes the F&I total and the deal total. -/
def update_menu_selection (d : Deal) (sel : MenuSelectionRequest) : Deal :=
  let vsc_part : ℚ :=
    match sel.selected_vsc_id with
    | none => 0
    | some vid =>
        match d.vsc_options.find? (fun v => v.id == vid) with
        | some v => v.final_price
        | none => 0
  let gap_option : Option GAPOption :=
    if sel.include_gap then
      let loan_amount :=
        match d.finance_terms with
        | some ft => ft.loan_amount
        | none => d.total_vehicle_price + d.total_fees_taxes
      some (generate_gap_option loan_amount d.vehicle.selling_price)
    else none
  let fi_total := vsc_part +
    (match gap_option with
     | some g => g.final_price
     | none => 0)
  { d with
    selected_vsc := sel.selected_vsc_id
    gap_option := gap_option
    total_fi_products := fi_total
    total_deal_amount := d.total_vehicle_price + d.total_fees_taxes + fi_total }

/-- One mutating request against a stored deal. -/
inductive DealOp where
  | finance (req : FinanceCalculationRequest)
  | menu (sel : MenuSelectionRequest)
  | setStatus (s : DealStatus)

def applyOp (d : Deal) : DealOp → Deal
  | .finance req => add_finance_terms d req
  | .menu sel => update_menu_selection d sel
  | .setStatus s => update_deal_status d s

def applyOps (d : Deal) (ops : List DealOp) : Deal := ops.foldl applyOp d

/-- Sum of the customer prices of the currently selected F&I products:
the menu price of the selected VSC (first id match, 0 when absent) plus
the stored GAP option's price. -/
def selectedFITotal (d : Deal) : ℚ :=
  (match d.selected_vsc with
   | none => 0
   | some vid =>
       match d.vsc_options.find? (fun v => v.id == vid) with
       | some v => v.final_price
       | none => 0) +
  (match d.gap_option with
   | some g => g.final_price
   | none => 0)

/-- The reconciliation invariant of the spec. -/
def dealInvariant (d : Deal) : Prop :=
  d.total_deal_amount = d.total_vehicle_price + d.total_fees_taxes + d.total_fi_products ∧
  d.total_fi_products = selectedFITotal d

/-! Concrete inputs used to exercise the server endpoints. -/

def sampleCustomer : Customer :=
  { first_name := "Jane", last_name := "Doe", state := some "CA" }

def sampleVehicle : Vehicle :=
  { vin := "1HGBH41JXMN109186", year := 2022, make := "Toyota", model := "Camry"
    condition := .used, mileage := 30000, msrp := 28000, selling_price := 25000 }

/-- Trade-in whose payoff exceeds its estimated value. -/
def underwaterTrade : TradeIn :=
  { year := 2018, make := "Honda", model := "Civic", mileage := 60000
    condition := "good", estimated_value := 1000, payoff_amount := 2500
    net_trade_value := 0 }

def underwaterDealCreate : DealCreate :=
  { customer := sampleCustomer, vehicle := sampleVehicle
    trade_in := some underwaterTrade }

/-- A stored tax calculation for `sampleVehicle` in CA (values as the
resolver produces them). -/
def sampleTaxCalc : TaxCalculation :=
  { sales_tax_rate := 0.0725, sales_tax_amount := 1812.5, title_fee := 23
    license_fee := 65, doc_fee := 85, total_fees := 1985.5 }

/-- A stored VSC menu option with id "vsc_a". -/
def sampleVSCOption : VSCOption :=
  { id := "vsc_a", coverage_type := .powertrain, term := .months_12
    mileage_limit := 100000, base_cost := 895, markup := 223.75
    final_price := 1118.75 }

/-- A stored deal whose VSC menu consists of the single option "vsc_a". -/
def menuDeal : Deal :=
  { customer := sampleCustomer, vehicle := sampleVehicle
    tax_calculation := sampleTaxCalc, vsc_options := [sampleVSCOption]
    total_vehicle_price := 25000, total_fees_taxes := 1985.5
    total_fi_products := 0, total_deal_amount := 26985.5 }

/-- The same stored deal in the terminal `completed` state. -/
def completedDeal : Deal := { menuDeal with status := .completed }

end Server

namespace Desking

inductive DealType where
  | cash
  | finance
  | lease
deriving DecidableEq

inductive PaymentFrequency where
  | monthly
  | biweekly
  | weekly
deriving DecidableEq

/-- The `periods_per_year` dict used by the payment calculators. -/
def periods_per_year : PaymentFrequency → ℕ
  | .monthly => 12
  | .biweekly => 26
  | .weekly => 52

structure FIProduct where
  name : String
  category : String
  base_cost : ℚ
  markup_percentage : ℚ
  dealer_cost : ℚ
  customer_price : ℚ
  term_months : Option ℕ := none
deriving DecidableEq

structure TradeIn where
  make : String
  model : String
  year : ℤ
  mileage : ℤ
  condition : String
  estimated_value : ℚ
  payoff_amount : ℚ := 0
  net_trade_value : ℚ := 0
deriving DecidableEq

structure TaxInfo where
  state : String
  county : String := ""
  city : String := ""
  zip_code : String
  tax_rate : ℚ
  doc_fee : ℚ
  title_fee : ℚ := 0
  registration_fee : ℚ := 0
deriving DecidableEq

structure FinanceTerms where
  loan_amount : ℚ
  interest_rate : ℚ
  term_months : ℕ
  down_payment : ℚ := 0
  payment_frequency : PaymentFrequency := .monthly
deriving DecidableEq

structure LeaseTerms where
  msrp : ℚ
  cap_cost : ℚ
  residual_percentage : ℚ
  money_factor : ℚ
  term_months : ℕ
  down_payment : ℚ := 0
  annual_mileage : ℤ := 12000
  acquisition_fee : ℚ := 595
  disposition_fee : ℚ := 350
deriving DecidableEq

structure DealCalculation where
  dealer_id : String
  vehicle_vin : String
  customer_name : String := ""
  deal_type : DealType
  vehicle_price : ℚ
  trade_in : Option TradeIn := none
  rebates : ℚ := 0
  dealer_discount : ℚ := 0
  finance_terms : Option FinanceTerms := none
  lease_terms : Option LeaseTerms := none
  fi_products : List FIProduct := []
  tax_info : TaxInfo
  monthly_payment : ℝ := 0
  total_amount_financed : ℝ := 0
  total_cost : ℝ := 0
  dealer_profit : ℝ := 0

/-- `DeskingService.calculate_finance_payment`: the frequency-aware
amortization calculator. The non-monthly total period count can be
fractional, so the annuity formula is taken over `ℝ` with real
exponentiation, matching the float `**`. Note the zero-rate early return
skips both the frequency conversion and the final rounding. -/
noncomputable def calculate_finance_payment (principal : ℚ) (rate : ℚ) (months : ℕ)
    (frequency : PaymentFrequency) : ℝ :=
  if rate = 0 then (principal : ℝ) / (months : ℝ)
  else
    let period_rate : ℚ := rate / 100 / (periods_per_year frequency : ℚ)
    let total_periods : ℚ := (months : ℚ) * ((periods_per_year frequency : ℚ) / 12)
    if period_rate > 0 then
      round2R ((principal : ℝ) * ((period_rate : ℝ) * (1 + (period_rate : ℝ)) ^ (total_periods : ℝ)) /
        ((1 + (period_rate : ℝ)) ^ (total_periods : ℝ) - 1))
    else
      round2R ((principal : ℝ) / (total_periods : ℝ))

/-- The `details` dict returned by `calculate_lease_payment`. -/
structure LeaseDetails where
  adjusted_cap_cost : ℚ
  residual_value : ℚ
  depreciation : ℚ
  monthly_depreciation : ℚ
  monthly_finance : ℚ
  acquisition_fee : ℚ
  disposition_fee : ℚ
deriving DecidableEq

/-- `DeskingService.calculate_lease_payment`. -/
def calculate_lease_payment (lt : LeaseTerms) : ℚ × LeaseDetails :=
  let adjusted_cap_cost := lt.cap_cost - lt.down_payment
  let residual_value := lt.msrp * (lt.residual_percentage / 100)
  let depreciation := adjusted_cap_cost - residual_value
  let monthly_depreciation := depreciation / (lt.term_months : ℚ)
  let monthly_finance := (adjusted_cap_cost + residual_value) * lt.money_factor
  let base_payment := monthly_depreciation + monthly_finance
  let total_monthly := base_payment
  (round2 total_monthly,
   { adjusted_cap_cost := adjusted_cap_cost
     residual_value := residual_value
     depreciation := depreciation
     monthly_depreciation := monthly_depreciation
     monthly_finance := monthly_finance
     acquisition_fee := lt.acquisition_fee
     disposition_fee := lt.disposition_fee })

/-- `DeskingService.calculate_tax_amount` (rate given as a percent). -/
def calculate_tax_amount (taxable_amount : ℚ) (tax_info : TaxInfo) : ℚ :=
  round2 (taxable_amount * (tax_info.tax_rate / 100))

/-- `DeskingService._calculate_dealer_profit`, evaluated on the deal
after the payment branch has filled `total_amount_financed`. -/
noncomputable def calculate_dealer_profit (deal : DealCalculation) : ℝ :=
  let front_end : ℚ := deal.dealer_discount * (-1)
  let fi_profit : ℚ := (deal.fi_products.map fun p => p.customer_price - p.dealer_cost).sum
  let finance_reserve : ℝ :=
    match deal.deal_type, deal.finance_terms with
    | .finance, some _ => deal.total_amount_financed * 0.015
    | _, _ => 0
  round2R ((front_end : ℝ) + (fi_profit : ℝ) + finance_reserve)

/-- `DeskingService.calculate_deal`, minus persistence: recomputes the
net trade value, the adjusted price, taxes, the payment branch, and the
dealer profit. -/
noncomputable def calculate_deal (deal0 : DealCalculation) : DealCalculation :=
  let trade_in := deal0.trade_in.map fun t =>
    { t with net_trade_value := max 0 (t.estimated_value - t.payoff_amount) }
  let deal := { deal0 with trade_in := trade_in }
  let adjusted_price0 := deal.vehicle_price - deal.dealer_discount - deal.rebates
  let adjusted_price1 :=
    match deal.trade_in with
    | some t => adjusted_price0 - t.net_trade_value
    | none => adjusted_price0
  let fi_total := (deal.fi_products.map fun p => p.customer_price).sum
  let adjusted_price := adjusted_price1 + fi_total
  let tax_amount := calculate_tax_amount adjusted_price deal.tax_info
  let total_with_tax := adjusted_price + tax_amount + deal.tax_info.doc_fee
  let deal1 :=
    match deal.deal_type, deal.finance_terms, deal.lease_terms with
    | .cash, _, _ =>
        { deal with total_cost := (total_with_tax : ℝ), monthly_payment := 0 }
    | .finance, some ft, _ =>
        let amount_financed := total_with_tax - ft.down_payment
        let monthly := calculate_finance_payment amount_financed ft.interest_rate
          ft.term_months ft.payment_frequency
        let total_payments : ℚ := (ft.term_months : ℚ) *
          ((periods_per_year ft.payment_frequency : ℚ) / 12)
        { deal with
          total_amount_financed := (amount_financed : ℝ)
          monthly_payment := monthly
          total_cost := monthly * (total_payments : ℝ) + (ft.down_payment : ℝ) }
    | .lease, _, some lt =>
        let res := calculate_lease_payment lt
        { deal with
          monthly_payment := (res.1 : ℝ)
          total_cost := ((res.1 * (lt.term_months : ℚ) + lt.down_payment + lt.acquisition_fee : ℚ) : ℝ) }
    | _, _, _ => deal
  { deal1 with dealer_profit := calculate_dealer_profit deal1 }

/-! Concrete inputs used to exercise the desking service. -/

/-- Concrete desking trade-in whose payoff exceeds its estimated value. -/
def underwaterDeskTrade : TradeIn :=
  { make := "Ford", model := "F150", year := 2019, mileage := 50000
    condition := "fair", estimated_value := 8000, payoff_amount := 12000 }

def underwaterDeskDeal : DealCalculation :=
  { dealer_id := "d1", vehicle_vin := "VIN2", deal_type := .cash
    vehicle_price := 22000, trade_in := some underwaterDeskTrade
    tax_info := { state := "TN", zip_code := "37200", tax_rate := 7, doc_fee := 199 } }

/-- 100% residual lease whose adjusted cap cost is below MSRP. -/
def capBelowMsrpLease : LeaseTerms :=
  { msrp := 10000, cap_cost := 10000, residual_percentage := 100
    money_factor := 0, term_months := 10, down_payment := 1000 }

/-- 100% residual lease whose adjusted cap cost equals MSRP. -/
def balancedLease : LeaseTerms :=
  { msrp := 30000, cap_cost := 30000, residual_percentage := 100
    money_factor := 0.002, term_months := 36, down_payment := 0 }

end Desking

/-! ### Rounding lemmas -/

lemma round2_add_cents (a : ℚ) (n : ℤ) :
    round2 (a + (n : ℚ) / 100) = round2 a + (n : ℚ) / 100 := by
  unfold round2
  have h : 100 * (a + (n : ℚ) / 100) = 100 * a + (n : ℚ) := by ring
  rw [h, round_add_int]
  push_cast
  ring

lemma round2_cents (n : ℤ) : round2 ((n : ℚ) / 100) = (n : ℚ) / 100 := by
  unfold round2
  have h : 100 * ((n : ℚ) / 100) = (n : ℚ) := by ring
  rw [h, round_intCast]

lemma round2_lt_round2 {a b : ℚ} (h : a + 1 / 100 ≤ b) : round2 a < round2 b := by
  unfold round2
  have h1 : round (100 * a) + 1 ≤ round (100 * b) := by
    have h2 : round (100 * a + (1 : ℤ)) ≤ round (100 * b) := by
      rw [round_eq, round_eq]
      exact Int.floor_mono (by push_cast; linarith)
    rwa [round_add_int] at h2
  have h3 : ((round (100 * a) : ℤ) : ℚ) < ((round (100 * b) : ℤ) : ℚ) := by
    exact_mod_cast h1
  linarith

lemma round2_nonneg {a : ℚ} (h : 0 ≤ a) : 0 ≤ round2 a := by
  unfold round2
  have h1 : (0 : ℤ) ≤ round (100 * a) := by
    rw [round_eq]
    exact Int.floor_nonneg.mpr (by linarith)
  have h2 : (0 : ℚ) ≤ ((round (100 * a) : ℤ) : ℚ) := by exact_mod_cast h1
  linarith

namespace Server

/-! ### Reconciliation invariant lemmas (C1) -/

lemma create_deal_invariant (dc : DealCreate) : dealInvariant (create_deal dc) := by
  have h1 : (create_deal dc).total_deal_amount =
      (create_deal dc).total_vehicle_price + (create_deal dc).total_fees_taxes := rfl
  have h2 : (create_deal dc).total_fi_products = 0 := rfl
  have h3 : selectedFITotal (create_deal dc) = 0 + 0 := rfl
  refine ⟨?_, ?_⟩
  · rw [h1, h2, add_zero]
  · rw [h2, h3, add_zero]

lemma update_menu_selection_invariant (d : Deal) (sel : MenuSelectionRequest) :
    dealInvariant (update_menu_selection d sel) :=
  ⟨rfl, rfl⟩

lemma applyOp_invariant (d : Deal) (op : DealOp) (h : dealInvariant d) :
    dealInvariant (applyOp d op) := by
  cases op with
  | finance req => exact h
  | menu sel => exact update_menu_selection_invariant d sel
  | setStatus s => exact h

lemma applyOps_invariant (ops : List DealOp) :
    ∀ d : Deal, dealInvariant d → dealInvariant (applyOps d ops) := by
  induction ops with
  | nil => exact fun d h => h
  | cons op rest ih => exact fun d h => ih (applyOp d op) (applyOp_invariant d op h)

end Server

namespace Server

lemma create_deal_trade_in (dc : DealCreate) :
    (create_deal dc).trade_in =
      dc.trade_in.map fun t =>
        { t with net_trade_value := t.estimated_value - t.payoff_amount } := rfl

end Server

namespace Desking

lemma calculate_deal_trade_in (d : DealCalculation) :
    (calculate_deal d).trade_in =
      d.trade_in.map fun t =>
        { t with net_trade_value := max 0 (t.estimated_value - t.payoff_amount) } := by
  obtain ⟨did, vvin, cname, dtype, vprice, tin, reb, disc, fter, lter, fips, tinfo,
    mp, taf, tc, dp⟩ := d
  cases dtype <;> cases fter <;> cases lter <;> rfl

end Desking

/-- C1: for every newly created deal and every sequence of mutating
operations on it (finance-terms attachment, F&I menu selection, status
updates), after each operation the stored totals satisfy
`total_deal_amount = total_vehicle_price + total_fees_taxes +
total_fi_products` exactly, where `total_fi_products` is the sum of the
customer prices of the currently selected F&I products (the menu price
of the selected VSC plus the stored GAP option price). -/
theorem deal_reconciliation_invariant (dc : Server.DealCreate) (ops : List Server.DealOp) :
    Server.dealInvariant (Server.applyOps (Server.create_deal dc) ops) :=
  Server.applyOps_invariant ops (Server.create_deal dc) (Server.create_deal_invariant dc)

/-- C2 counterexample: `server.create_deal` recomputes
`net_trade_value = estimated_value - payoff_amount` without the
`max(0, ...)` floor, so a trade-in with estimated value 1000 and payoff
2500 is stored with the negative net trade value -1500. -/
theorem create_deal_negative_net_trade_counterexample :
    (Server.create_deal Server.underwaterDealCreate).trade_in.map
        Server.TradeIn.net_trade_value = some (-1500) ∧ (-1500 : ℚ) < 0 := by
  constructor
  · rw [Server.create_deal_trade_in]
    simp [Server.underwaterDealCreate, Server.underwaterTrade]
    norm_num
  · norm_num

/-- C2 amended: both calculation paths recompute `net_trade_value` from
the trade-in's components, ignoring any caller-supplied value.
`DeskingService.calculate_deal` applies the non-negativity floor
`max(0, estimated_value - payoff_amount)`; `server.create_deal` omits
the floor and stores `estimated_value - payoff_amount`, which is
negative whenever `payoff_amount > estimated_value`. -/
theorem net_trade_value_recomputed (d : Desking.DealCalculation) (t : Desking.TradeIn)
    (dc : Server.DealCreate) (t2 : Server.TradeIn)
    (h1 : d.trade_in = some t) (h2 : dc.trade_in = some t2) :
    (Desking.calculate_deal d).trade_in =
        some { t with net_trade_value := max 0 (t.estimated_value - t.payoff_amount) } ∧
    (0 : ℚ) ≤ max 0 (t.estimated_value - t.payoff_amount) ∧
    (Server.create_deal dc).trade_in =
        some { t2 with net_trade_value := t2.estimated_value - t2.payoff_amount } := by
  refine ⟨?_, le_max_left 0 _, ?_⟩
  · rw [Desking.calculate_deal_trade_in, h1, Option.map_some']
  · rw [Server.create_deal_trade_in, h2, Option.map_some']

/-- C2 witness: the amended theorem applied to concrete deals carrying
underwater trade-ins. -/
theorem net_trade_value_recomputed_witness :
    (Desking.calculate_deal Desking.underwaterDeskDeal).trade_in =
        some { Desking.underwaterDeskTrade with
          net_trade_value := max 0 (Desking.underwaterDeskTrade.estimated_value -
            Desking.underwaterDeskTrade.payoff_amount) } ∧
    (0 : ℚ) ≤ max 0 (Desking.underwaterDeskTrade.estimated_value -
        Desking.underwaterDeskTrade.payoff_amount) ∧
    (Server.create_deal Server.underwaterDealCreate).trade_in =
        some { Server.underwaterTrade with
          net_trade_value := Server.underwaterTrade.estimated_value -
            Server.underwaterTrade.payoff_amount } :=
  net_trade_value_recomputed Desking.underwaterDeskDeal Desking.underwaterDeskTrade
    Server.underwaterDealCreate Server.underwaterTrade rfl rfl

/-- C3 counterexample: at zero rate the frequency-aware calculator
`DeskingService.calculate_finance_payment` returns `principal / months`,
ignoring the frequency, so for a 36-month biweekly loan of 20000 it does
not return `principal / totalPeriods = 20000 / 78` as claimed. -/
theorem zero_rate_ignores_frequency_counterexample :
    Desking.calculate_finance_payment 20000 0 36 Desking.PaymentFrequency.biweekly ≠
      (20000 : ℝ) / 78 := by
  unfold Desking.calculate_finance_payment
  norm_num

namespace Server

/-! ### VSC menu lemmas (C4, C10) -/

lemma ageFactor_ge (v : Vehicle) : (4 / 5 : ℚ) ≤ ageFactor v :=
  le_trans (by norm_num) (le_max_left _ _)

lemma mileageFactor_ge (v : Vehicle) : (4 / 5 : ℚ) ≤ mileageFactor v :=
  le_trans (by norm_num) (le_max_left _ _)

lemma sharedFactor_ge (v : Vehicle) : (16 / 25 : ℚ) ≤ ageFactor v * mileageFactor v := by
  have h1 := ageFactor_ge v
  have h2 := mileageFactor_ge v
  nlinarith

/-- For a shared vehicle and term, a strictly larger table base cost gives
a strictly larger rounded final price. -/
lemma mk_vsc_final_lt (v : Vehicle) {c1 c2 : VSCCoverage} {t : VSCTerm}
    (h : vsc_base_cost c1 t + 1 ≤ vsc_base_cost c2 t) :
    (mk_vsc_option v c1 t).final_price < (mk_vsc_option v c2 t).final_price := by
  have hfp1 : (mk_vsc_option v c1 t).final_price =
      round2 (vsc_base_cost c1 t * ageFactor v * mileageFactor v +
        vsc_base_cost c1 t * 0.25) := rfl
  have hfp2 : (mk_vsc_option v c2 t).final_price =
      round2 (vsc_base_cost c2 t * ageFactor v * mileageFactor v +
        vsc_base_cost c2 t * 0.25) := rfl
  rw [hfp1, hfp2]
  apply round2_lt_round2
  have hf := sharedFactor_ge v
  have hfpos : (0 : ℚ) ≤ ageFactor v * mileageFactor v := le_trans (by norm_num) hf
  have h3 : (1 : ℚ) * (ageFactor v * mileageFactor v) ≤
      (vsc_base_cost c2 t - vsc_base_cost c1 t) * (ageFactor v * mileageFactor v) :=
    mul_le_mul_of_nonneg_right (by linarith) hfpos
  nlinarith

lemma mk_vsc_option_mem (v : Vehicle) (c : VSCCoverage) (t : VSCTerm) :
    mk_vsc_option v c t ∈ generate_vsc_options v := by
  cases c <;> cases t <;>
    simp [generate_vsc_options, vscCoverages, vscTerms]

lemma vsc_base_cost_int (c : VSCCoverage) (t : VSCTerm) :
    ∃ z : ℤ, vsc_base_cost c t = (z : ℚ) := by
  cases c <;> cases t
  · exact ⟨895, by norm_num [vsc_base_cost]⟩
  · exact ⟨1295, by norm_num [vsc_base_cost]⟩
  · exact ⟨1695, by norm_num [vsc_base_cost]⟩
  · exact ⟨2095, by norm_num [vsc_base_cost]⟩
  · exact ⟨2495, by norm_num [vsc_base_cost]⟩
  · exact ⟨1495, by norm_num [vsc_base_cost]⟩
  · exact ⟨1995, by norm_num [vsc_base_cost]⟩
  · exact ⟨2495, by norm_num [vsc_base_cost]⟩
  · exact ⟨2995, by norm_num [vsc_base_cost]⟩
  · exact ⟨3495, by norm_num [vsc_base_cost]⟩
  · exact ⟨1995, by norm_num [vsc_base_cost]⟩
  · exact ⟨2695, by norm_num [vsc_base_cost]⟩
  · exact ⟨3395, by norm_num [vsc_base_cost]⟩
  · exact ⟨4095, by norm_num [vsc_base_cost]⟩
  · exact ⟨4795, by norm_num [vsc_base_cost]⟩

/-- The 25% markup on an integer table base cost is an exact number of
cents, so rounding distributes over the sum `adjusted_cost + markup`. -/
lemma mk_vsc_option_consistent (v : Vehicle) (c : VSCCoverage) (t : VSCTerm) :
    (mk_vsc_option v c t).final_price =
      (mk_vsc_option v c t).base_cost + (mk_vsc_option v c t).markup := by
  obtain ⟨z, hz⟩ := vsc_base_cost_int c t
  have hfp : (mk_vsc_option v c t).final_price =
      round2 (vsc_base_cost c t * ageFactor v * mileageFactor v +
        vsc_base_cost c t * 0.25) := rfl
  have hbc : (mk_vsc_option v c t).base_cost =
      round2 (vsc_base_cost c t * ageFactor v * mileageFactor v) := rfl
  have hmk : (mk_vsc_option v c t).markup = round2 (vsc_base_cost c t * 0.25) := rfl
  rw [hfp, hbc, hmk, hz]
  have h1 : (z : ℚ) * 0.25 = ((25 * z : ℤ) : ℚ) / 100 := by push_cast; ring
  rw [h1, round2_add_cents, round2_cents]

end Server

/-- C4: for every vehicle and every fixed VSC term, the three coverage
tiers of the generated menu have strictly ordered final prices:
premium > bumper-to-bumper > powertrain. -/
theorem vsc_price_ordering (v : Server.Vehicle) (t : Server.VSCTerm) :
    Server.mk_vsc_option v .premium t ∈ Server.generate_vsc_options v ∧
    Server.mk_vsc_option v .bumper_to_bumper t ∈ Server.generate_vsc_options v ∧
    Server.mk_vsc_option v .powertrain t ∈ Server.generate_vsc_options v ∧
    (Server.mk_vsc_option v .bumper_to_bumper t).final_price <
      (Server.mk_vsc_option v .premium t).final_price ∧
    (Server.mk_vsc_option v .powertrain t).final_price <
      (Server.mk_vsc_option v .bumper_to_bumper t).final_price :=
  ⟨Server.mk_vsc_option_mem v _ t, Server.mk_vsc_option_mem v _ t,
    Server.mk_vsc_option_mem v _ t,
    Server.mk_vsc_final_lt v (by cases t <;> norm_num [Server.vsc_base_cost]),
    Server.mk_vsc_final_lt v (by cases t <;> norm_num [Server.vsc_base_cost])⟩

/-- C10: every option of the generated VSC menu stores internally
consistent fields: `final_price = base_cost + markup` exactly, where the
stored `base_cost` is the age/mileage-adjusted cost rounded to 2
decimals and the stored `markup` is 25% of the unadjusted table base
cost rounded to 2 decimals. -/
theorem vsc_option_fields_consistent (v : Server.Vehicle) (o : Server.VSCOption)
    (ho : o ∈ Server.generate_vsc_options v) :
    o.final_price = o.base_cost + o.markup ∧
    o.base_cost = round2 (Server.vsc_base_cost o.coverage_type o.term *
      Server.ageFactor v * Server.mileageFactor v) ∧
    o.markup = round2 (Server.vsc_base_cost o.coverage_type o.term * 0.25) := by
  have hex : ∃ c t, o = Server.mk_vsc_option v c t := by
    simp only [Server.generate_vsc_options, List.mem_flatten, List.mem_map] at ho
    rcases ho with ⟨l, ⟨c, hc, rfl⟩, ho⟩
    rcases List.mem_map.mp ho with ⟨t, ht, rfl⟩
    exact ⟨c, t, rfl⟩
  rcases hex with ⟨c, t, rfl⟩
  exact ⟨Server.mk_vsc_option_consistent v c t, rfl, rfl⟩

/-- C10 witness: the consistency theorem applied to a concrete vehicle
and the powertrain/12-month option of its generated menu. -/
theorem vsc_option_fields_consistent_witness :
    (Server.mk_vsc_option Server.sampleVehicle .powertrain .months_12).final_price =
      (Server.mk_vsc_option Server.sampleVehicle .powertrain .months_12).base_cost +
      (Server.mk_vsc_option Server.sampleVehicle .powertrain .months_12).markup ∧
    (Server.mk_vsc_option Server.sampleVehicle .powertrain .months_12).base_cost =
      round2 (Server.vsc_base_cost
        (Server.mk_vsc_option Server.sampleVehicle .powertrain .months_12).coverage_type
        (Server.mk_vsc_option Server.sampleVehicle .powertrain .months_12).term *
        Server.ageFactor Server.sampleVehicle * Server.mileageFactor Server.sampleVehicle) ∧
    (Server.mk_vsc_option Server.sampleVehicle .powertrain .months_12).markup =
      round2 (Server.vsc_base_cost
        (Server.mk_vsc_option Server.sampleVehicle .powertrain .months_12).coverage_type
        (Server.mk_vsc_option Server.sampleVehicle .powertrain .months_12).term * 0.25) :=
  vsc_option_fields_consistent Server.sampleVehicle
    (Server.mk_vsc_option Server.sampleVehicle .powertrain .months_12)
    (Server.mk_vsc_option_mem Server.sampleVehicle .powertrain .months_12)

/-- C3 amended: at zero rate the frequency-aware
`DeskingService.calculate_finance_payment` returns `principal / months`
unrounded for every frequency (so the claimed `principal / totalPeriods`
form holds only for the monthly frequency); the monthly-only
`server.calculate_finance_payment` satisfies the claimed example:
at (20000, 0, 60) it returns payment 333.33, total interest 0, total
cost 20000.00. -/
theorem zero_rate_amortization :
    (∀ (p : ℚ) (m : ℕ) (f : Desking.PaymentFrequency),
        Desking.calculate_finance_payment p 0 m f = (p : ℝ) / (m : ℝ)) ∧
    Server.calculate_finance_payment 20000 0 60 =
      { monthly_payment := 333.33, total_interest := 0, total_cost := 20000 } := by
  constructor
  · intro p m f
    unfold Desking.calculate_finance_payment
    norm_num
  · unfold Server.calculate_finance_payment
    norm_num [round2, round_eq]

/-- The code's `min(1295, max(695, x))` agrees with the spec's
`clamp(x, 695, 1295)`. -/
lemma min_max_clamp (x : ℚ) : min 1295 (max 695 x) = clampQ x 695 1295 := by
  unfold clampQ
  simp only [min_def, max_def]
  split_ifs <;> linarith

/-- C5: the GAP quote's stored fields are the 2-decimal roundings of
`baseCost = clamp(loanAmount x 0.05, 695, 1295)`,
`markup = baseCost x 0.30`, `finalPrice = baseCost + markup`, and the
4-decimal rounding of `ltv = loanAmount / vehicleValue` guarded to 0
when `vehicleValue` is 0; at loan amounts 5000 and 50000 the base cost
clamps to 695 and 1295. -/
theorem gap_option_pricing (L V : ℚ) :
    (Server.generate_gap_option L V).base_cost = round2 (clampQ (L * 0.05) 695 1295) ∧
    (Server.generate_gap_option L V).markup = round2 (clampQ (L * 0.05) 695 1295 * 0.30) ∧
    (Server.generate_gap_option L V).final_price =
      round2 (clampQ (L * 0.05) 695 1295 + clampQ (L * 0.05) 695 1295 * 0.30) ∧
    (Server.generate_gap_option L V).loan_to_value_ratio =
      round4 (if V > 0 then L / V else 0) ∧
    (Server.generate_gap_option L 0).loan_to_value_ratio = 0 ∧
    (Server.generate_gap_option 5000 V).base_cost = 695 ∧
    (Server.generate_gap_option 50000 V).base_cost = 1295 := by
  refine ⟨?_, ?_, ?_, rfl, ?_, ?_, ?_⟩
  · show round2 (min 1295 (max 695 (L * 0.05))) = _
    rw [min_max_clamp]
  · show round2 (min 1295 (max 695 (L * 0.05)) * 0.30) = _
    rw [min_max_clamp]
  · show round2 (min 1295 (max 695 (L * 0.05)) + min 1295 (max 695 (L * 0.05)) * 0.30) = _
    rw [min_max_clamp]
  · show round4 (if (0 : ℚ) > 0 then L / 0 else 0) = 0
    norm_num [round4]
  · show round2 (min 1295 (max 695 ((5000 : ℚ) * 0.05))) = 695
    norm_num [round2, round_eq]
  · show round2 (min 1295 (max 695 ((50000 : ℚ) * 0.05))) = 1295
    norm_num [round2, round_eq]

/-- C6 counterexample: a lease with `residual_percentage = 100` but an
adjusted cap cost below MSRP (cap 10000, down payment 1000, MSRP 10000)
has depreciation -1000, not 0, and a negative monthly payment. -/
theorem lease_residual_100_counterexample :
    (Desking.calculate_lease_payment Desking.capBelowMsrpLease).2.depreciation = -1000 ∧
    (Desking.calculate_lease_payment Desking.capBelowMsrpLease).1 < 0 := by
  constructor <;>
    norm_num [Desking.calculate_lease_payment, Desking.capBelowMsrpLease, round2, round_eq]

/-- C6 amended: for a lease with `residual_percentage = 100` whose
adjusted cap cost (`cap_cost - down_payment`) equals the MSRP,
depreciation is 0 and the monthly payment is exactly the rounded monthly
finance charge; with a non-negative money factor and MSRP the payment is
non-negative, and the zero depreciation contributes 0 to the payment
with no division hazard. -/
theorem lease_residual_100 (lt : Desking.LeaseTerms)
    (h100 : lt.residual_percentage = 100)
    (hcap : lt.cap_cost - lt.down_payment = lt.msrp)
    (hmf : 0 ≤ lt.money_factor) (hmsrp : 0 ≤ lt.msrp) :
    (Desking.calculate_lease_payment lt).2.depreciation = 0 ∧
    (Desking.calculate_lease_payment lt).1 =
      round2 ((lt.cap_cost - lt.down_payment + lt.msrp * (lt.residual_percentage / 100)) *
        lt.money_factor) ∧
    0 ≤ (Desking.calculate_lease_payment lt).1 := by
  have hd : (Desking.calculate_lease_payment lt).2.depreciation =
      lt.cap_cost - lt.down_payment - lt.msrp * (lt.residual_percentage / 100) := rfl
  have hp : (Desking.calculate_lease_payment lt).1 =
      round2 ((lt.cap_cost - lt.down_payment - lt.msrp * (lt.residual_percentage / 100)) /
          (lt.term_months : ℚ) +
        (lt.cap_cost - lt.down_payment + lt.msrp * (lt.residual_percentage / 100)) *
          lt.money_factor) := rfl
  have hdep : lt.cap_cost - lt.down_payment - lt.msrp * (lt.residual_percentage / 100) = 0 := by
    rw [h100, hcap]; ring
  have hpay : (Desking.calculate_lease_payment lt).1 =
      round2 ((lt.cap_cost - lt.down_payment + lt.msrp * (lt.residual_percentage / 100)) *
        lt.money_factor) := by
    rw [hp, hdep, zero_div, zero_add]
  refine ⟨by rw [hd, hdep], hpay, ?_⟩
  rw [hpay]
  apply round2_nonneg
  rw [hcap, h100]
  nlinarith

/-- C6 witness: the amended theorem applied to a 100% residual lease
whose adjusted cap cost equals MSRP. -/
theorem lease_residual_100_witness :
    (Desking.calculate_lease_payment Desking.balancedLease).2.depreciation = 0 ∧
    (Desking.calculate_lease_payment Desking.balancedLease).1 =
      round2 ((Desking.balancedLease.cap_cost - Desking.balancedLease.down_payment +
        Desking.balancedLease.msrp * (Desking.balancedLease.residual_percentage / 100)) *
        Desking.balancedLease.money_factor) ∧
    0 ≤ (Desking.calculate_lease_payment Desking.balancedLease).1 :=
  lease_residual_100 Desking.balancedLease rfl (by norm_num [Desking.balancedLease])
    (by norm_num [Desking.balancedLease]) (by norm_num [Desking.balancedLease])

/-- C7 counterexample: selecting the VSC id "bogus", which is not in the
deal's generated menu, is not rejected: the operation succeeds, stores
the unknown id as `selected_vsc`, sets `total_fi_products` to 0, and
commits the mutation (the deal changes). -/
theorem menu_selection_unknown_vsc_counterexample :
    Server.menuDeal.vsc_options.all (fun v => v.id != "bogus") = true ∧
    (Server.update_menu_selection Server.menuDeal
        { selected_vsc_id := some "bogus", include_gap := false }).selected_vsc =
      some "bogus" ∧
    (Server.update_menu_selection Server.menuDeal
        { selected_vsc_id := some "bogus", include_gap := false }).total_fi_products = 0 ∧
    Server.update_menu_selection Server.menuDeal
        { selected_vsc_id := some "bogus", include_gap := false } ≠ Server.menuDeal := by
  refine ⟨by decide, rfl, ?_, ?_⟩
  · simp [Server.update_menu_selection, Server.menuDeal, Server.sampleVSCOption]
  · intro h
    have h2 := congrArg Server.Deal.selected_vsc h
    exact Option.noConfusion h2

/-- C7 amended: selecting a VSC id absent from the deal's menu is
silently ignored rather than rejected: the update succeeds, the unknown
id is stored as `selected_vsc`, the F&I total gets no VSC contribution,
and the recomputed totals are committed. -/
theorem menu_selection_unknown_vsc (d : Server.Deal) (vid : String)
    (h : d.vsc_options.all (fun v => v.id != vid) = true) :
    (Server.update_menu_selection d
        { selected_vsc_id := some vid, include_gap := false }).selected_vsc = some vid ∧
    (Server.update_menu_selection d
        { selected_vsc_id := some vid, include_gap := false }).total_fi_products = 0 ∧
    (Server.update_menu_selection d
        { selected_vsc_id := some vid, include_gap := false }).total_deal_amount =
      d.total_vehicle_price + d.total_fees_taxes := by
  have hfind : d.vsc_options.find? (fun v => v.id == vid) = none := by
    rw [List.find?_eq_none]
    intro x hx
    have hx2 := (List.all_eq_true.mp h) x hx
    simpa using hx2
  have h2 : (Server.update_menu_selection d
      { selected_vsc_id := some vid, include_gap := false }).total_fi_products =
      (match d.vsc_options.find? (fun v => v.id == vid) with
       | some v => v.final_price
       | none => 0) + 0 := rfl
  have h3 : (Server.update_menu_selection d
      { selected_vsc_id := some vid, include_gap := false }).total_deal_amount =
      d.total_vehicle_price + d.total_fees_taxes +
      ((match d.vsc_options.find? (fun v => v.id == vid) with
        | some v => v.final_price
        | none => 0) + 0) := rfl
  refine ⟨rfl, ?_, ?_⟩
  · rw [h2, hfind]
    norm_num
  · rw [h3, hfind]
    norm_num

/-- C7 witness: the amended theorem applied to a concrete deal whose
menu holds the single id "vsc_a" and the absent id "bogus". -/
theorem menu_selection_unknown_vsc_witness :
    (Server.update_menu_selection Server.menuDeal
        { selected_vsc_id := some "bogus", include_gap := false }).selected_vsc =
      some "bogus" ∧
    (Server.update_menu_selection Server.menuDeal
        { selected_vsc_id := some "bogus", include_gap := false }).total_fi_products = 0 ∧
    (Server.update_menu_selection Server.menuDeal
        { selected_vsc_id := some "bogus", include_gap := false }).total_deal_amount =
      Server.menuDeal.total_vehicle_price + Server.menuDeal.total_fees_taxes :=
  menu_selection_unknown_vsc Server.menuDeal "bogus" (by decide)

/-- C8 counterexample: a deal in the terminal `completed` state is moved
back to `pending` by the status-update operation. -/
theorem terminal_status_counterexample :
    Server.completedDeal.status = Server.DealStatus.completed ∧
    (Server.update_deal_status Server.completedDeal Server.DealStatus.pending).status =
      Server.DealStatus.pending ∧
    Server.DealStatus.pending ≠ Server.DealStatus.completed :=
  ⟨rfl, rfl, by decide⟩

/-- C8 amended: the status-update operation overwrites the stored status
with the requested one unconditionally, for every deal and every target
status; in particular deals in terminal states (completed, cancelled)
can transition out of them. -/
theorem update_deal_status_unconditional (d : Server.Deal) (s : Server.DealStatus) :
    (Server.update_deal_status d s).status = s := rfl

/-- C9: for every jurisdiction key outside the table (CA, TX, FL, NY)
and every price, the resolver returns exactly the CA default row
(rate 0.0725, title 23, license 65, doc 85); determinism is immediate
since `calculate_sales_tax` is a pure function of its arguments. -/
theorem unknown_state_tax_default (state : String) (price : ℚ)
    (hCA : state ≠ "CA") (hTX : state ≠ "TX") (hFL : state ≠ "FL") (hNY : state ≠ "NY") :
    Server.calculate_sales_tax price state = Server.calculate_sales_tax price "CA" ∧
    (Server.calculate_sales_tax price state).sales_tax_rate = 0.0725 ∧
    (Server.calculate_sales_tax price state).title_fee = 23 ∧
    (Server.calculate_sales_tax price state).license_fee = 65 ∧
    (Server.calculate_sales_tax price state).doc_fee = 85 := by
  have ht : Server.tax_rates_table state = none := by
    simp [Server.tax_rates_table, hCA, hTX, hFL, hNY]
  have hu : Server.calculate_sales_tax price state = Server.calculate_sales_tax price "CA" := by
    unfold Server.calculate_sales_tax
    rw [ht]
    rfl
  refine ⟨hu, ?_, ?_, ?_, ?_⟩ <;> rw [hu] <;> rfl

/-- C9 witness: the default theorem applied to the unknown state "ZZ". -/
theorem unknown_state_tax_default_witness :
    Server.calculate_sales_tax 100 "ZZ" = Server.calculate_sales_tax 100 "CA" :=
  (unknown_state_tax_default "ZZ" 100 (by decide) (by decide) (by decide) (by decide)).1
